import Mathlib

/-!
Verification of the workflow-orchestration core of the email-automation
agent.  The definitions below are a shallow embedding of
`backend/graph/state.py`, `backend/graph/nodes.py`,
`backend/graph/orchestrator.py`, `backend/tools/tool_registry.py`,
`backend/tools/knowledge_updater.py` and `backend/config.py`.
LLM / retriever / tool collaborators are modelled as oracles whose
outcome at each call is either a structured result, a null (falsy)
result, or a raised exception with a message.
-/

namespace EmailAgent

/-- Embedding of `TriageResult` (state.py). -/
structure TriageResult where
  category : String
  priority : String
  should_respond : Bool
  reasoning : String
deriving DecidableEq, Repr

/-- Embedding of `ExtractedData` (state.py). -/
structure ExtractedData where
  summary : String
  has_attachments : Bool
deriving DecidableEq, Repr

/-- Embedding of `AttachmentDetails` (state.py). -/
structure AttachmentDetails where
  id : String
  filename : String
  mimeType : String
deriving DecidableEq, Repr

/-- Embedding of `EmailDetails` (state.py). -/
structure EmailDetails where
  message_id : String
  thread_id : String
  sender_email : String
  subject : String
  full_content : String
  original_message_id_header : String
  attachments : List AttachmentDetails
deriving DecidableEq, Repr

/-- Embedding of `Intent` (state.py): `tool_query` is `Optional[str]`. -/
structure Intent where
  tool_name : String
  tool_query : Option String
deriving DecidableEq, Repr

/-- Embedding of `Critique` (state.py). -/
structure Critique where
  is_acceptable : Bool
  feedback : String
deriving DecidableEq, Repr

/-- Embedding of `LearnableInfo` (knowledge_updater.py); `fact` is
`Optional[str]` with default `None`. -/
structure LearnableInfo where
  is_significant : Bool
  fact : Option String
deriving DecidableEq, Repr

/-- Embedding of the `AgentState` TypedDict (state.py, `total=False`):
every field is optional until written.  The same shape doubles as the
type of the partial updates returned by the nodes (a returned dict is the
sub-record of fields it mentions; unmentioned fields are `none`). -/
structure AgentState where
  email_details : Option EmailDetails := none
  conversation_history : Option String := none
  triage_result : Option TriageResult := none
  extracted_data : Option ExtractedData := none
  intent : Option Intent := none
  rag_context : Option String := none
  tool_output : Option String := none
  draft_reply : Option String := none
  learnable_fact : Option String := none
  critique_feedback : Option String := none
  revision_count : Option Nat := none
  requires_review : Option Bool := none
  error_message : Option String := none
deriving DecidableEq, Repr

/-- Field-wise merge of a single optional field: the update's value when
the update mentions the field, the old value otherwise. -/
def updField {α : Type} : Option α → Option α → Option α
  | some v, _ => some v
  | none, old => old

/-- The LangGraph merge of a node's partial update `u` into the running
state `s`: field-wise overwrite, fields the update does not mention are
preserved (Python `{**state, **update}` on the `AgentState` TypedDict,
which has no custom reducers). -/
def merge (s u : AgentState) : AgentState where
  email_details := updField u.email_details s.email_details
  conversation_history := updField u.conversation_history s.conversation_history
  triage_result := updField u.triage_result s.triage_result
  extracted_data := updField u.extracted_data s.extracted_data
  intent := updField u.intent s.intent
  rag_context := updField u.rag_context s.rag_context
  tool_output := updField u.tool_output s.tool_output
  draft_reply := updField u.draft_reply s.draft_reply
  learnable_fact := updField u.learnable_fact s.learnable_fact
  critique_feedback := updField u.critique_feedback s.critique_feedback
  revision_count := updField u.revision_count s.revision_count
  requires_review := updField u.requires_review s.requires_review
  error_message := updField u.error_message s.error_message

/-- Python truthiness of an optional string (`state.get(k)` is falsy when
the key is absent or holds the empty string). -/
def truthyStr : Option String → Bool
  | none => false
  | some s => !(s == "")

/-- Outcome of one collaborator call as seen by a node: a structured
result, a null/falsy result (`if not result:`), or a raised exception
carrying the text interpolated into the error message. -/
inductive LLMResult (α : Type) where
  | ok (val : α)
  | nullResult
  | exn (msg : String)
deriving DecidableEq, Repr

/-- Embedding of `config.MAX_REVISIONS` (config.py). -/
def MAX_REVISIONS : Nat := 2

/-- Embedding of node `triage_email` (nodes.py). -/
def triage_email (state : AgentState) (llm : LLMResult TriageResult) : AgentState :=
  match state.email_details with
  | none => { error_message := some "Triage failed: Missing email_details in state." }
  | some _ =>
    match llm with
    | .ok r => { triage_result := some r }
    | .nullResult => { error_message := some "Triage failed: LLM API returned no result." }
    | .exn e => { error_message := some ("Triage failed: " ++ e) }

/-- Embedding of node `extract_data` (nodes.py). -/
def extract_data (state : AgentState) (llm : LLMResult ExtractedData) : AgentState :=
  match state.email_details with
  | none => { error_message := some "Data extraction failed: Missing email_details in state." }
  | some _ =>
    match llm with
    | .ok r => { extracted_data := some r }
    | .nullResult => { error_message := some "Data extraction failed: LLM API returned no result." }
    | .exn e => { error_message := some ("Data extraction failed: " ++ e) }

/-- Embedding of `extract_learnable_info` (knowledge_updater.py): the
chain call is wrapped in try/except; a null result and an exception both
yield `None`. -/
def extract_learnable_info (llm : LLMResult LearnableInfo) : Option LearnableInfo :=
  match llm with
  | .ok r => some r
  | .nullResult => none
  | .exn _ => none

/-- Embedding of node `find_learning_opportunities` (nodes.py): empty
update when `email_details` is missing, when no significant fact with a
truthy `fact` string is found, or when the collaborator fails. -/
def find_learning_opportunities (state : AgentState) (llm : LLMResult LearnableInfo) : AgentState :=
  match state.email_details with
  | none => {}
  | some _ =>
    match extract_learnable_info llm with
    | none => {}
    | some info =>
      match info.fact with
      | none => {}
      | some f => if info.is_significant && !(f == "") then { learnable_fact := some f } else {}

/-- Embedding of node `select_intent_and_tool` (nodes.py). -/
def select_intent_and_tool (state : AgentState) (llm : LLMResult Intent) : AgentState :=
  if state.email_details.isNone || state.extracted_data.isNone then
    { error_message := some "Intent selection failed: Missing email_details or extracted_data." }
  else
    match llm with
    | .ok r => { intent := some r }
    | .nullResult => { error_message := some "Intent selection failed: LLM API returned no result." }
    | .exn e => { error_message := some ("Intent selection failed: " ++ e) }

/-- Embedding of node `retrieve_from_knowledge_base` (nodes.py): never
sets `error_message`; any failure of the retrieval chain (exception, or a
result without the expected answer) is caught and turned into a fallback
`rag_context` string. -/
def retrieve_from_knowledge_base (state : AgentState) (rag : LLMResult String) : AgentState :=
  match state.extracted_data with
  | none => { rag_context := some "Skipping RAG: Missing extracted_data." }
  | some _ =>
    match rag with
    | .ok answer => { rag_context := some answer }
    | .nullResult => { rag_context := some "Failed to retrieve context from knowledge base." }
    | .exn _ => { rag_context := some "Failed to retrieve context from knowledge base." }

/-- Tool names enumerated by `ToolRegistry._discover_tools`
(tool_registry.py): the registry's set of registered tools. -/
def toolNames : List String :=
  ["search_the_web", "check_availability", "create_calendar_event",
   "get_pending_drafts_summary", "get_high_priority_summary",
   "get_full_email_content", "list_attachments", "star_email",
   "delete_email", "search_gmail", "search_google_drive", "draft_a_reply",
   "send_email", "knowledge_tool", "contact_lookup", "process_attachment"]

/-- Attribute names of a `ToolRegistry` instance beyond the tool names
and the inherited ones: the fields assigned in `__init__` and the
methods defined on the class. -/
def registryExtraAttrNames : List String :=
  ["google_api_service", "knowledge_base", "llm", "_tools",
   "_discover_tools", "get_all_tools"]

/-- Attribute names every instance of a plain Python class inherits from
`object` (the CPython 3.x common core; newer CPython versions add
further dunder names such as `__getstate__`, which would only enlarge
the attribute set — every concrete fact proved below uses only names
whose membership is the same across versions, and the router theorems
are additionally proved for an arbitrary attribute predicate). -/
def objectAttrNames : List String :=
  ["__class__", "__delattr__", "__dict__", "__dir__", "__doc__", "__eq__",
   "__format__", "__ge__", "__getattribute__", "__gt__", "__hash__",
   "__init__", "__init_subclass__", "__le__", "__lt__", "__module__",
   "__ne__", "__new__", "__reduce__", "__reduce_ex__", "__repr__",
   "__setattr__", "__sizeof__", "__str__", "__subclasshook__", "__weakref__"]

/-- Embedding of Python `hasattr(tool_registry, name)`: true for every
tool name (each tool is `setattr` into the instance in `__init__`), for
the other attributes of the instance and its class, and for the
attributes inherited from `object`. -/
def hasattrToolRegistry (name : String) : Bool :=
  (toolNames ++ registryExtraAttrNames ++ objectAttrNames).contains name

/-- Embedding of node `execute_tool` (nodes.py): `getattr` lookup of the
intent's tool name, then the tool call (whose outcome the oracle gives). -/
def execute_tool (state : AgentState) (tool : LLMResult String) : AgentState :=
  match state.intent, state.email_details with
  | some i, some _ =>
    if !(hasattrToolRegistry i.tool_name) then
      { error_message := some ("Tool '" ++ i.tool_name ++ "' not found in registry.") }
    else
      match tool with
      | .ok output => { tool_output := some output }
      | .nullResult => { tool_output := some "" }
      | .exn e =>
        { error_message := some ("Tool execution for '" ++ i.tool_name ++ "' failed: " ++ e) }
  | _, _ => { error_message := some "Tool execution failed: Missing intent or email_details." }

/-- Embedding of node `generate_response` (nodes.py): on success the
update sets the draft and `revision_count := state.get("revision_count", 0) + 1`;
on a missing precondition, a null LLM result or an exception the update
sets only `error_message` (and in particular does not touch
`revision_count`). -/
def generate_response (state : AgentState) (llm : LLMResult String) : AgentState :=
  match state.extracted_data with
  | none => { error_message := some "Response generation failed: Missing extracted_data." }
  | some _ =>
    match llm with
    | .ok content =>
      { draft_reply := some content,
        revision_count := some (state.revision_count.getD 0 + 1) }
    | .nullResult => { error_message := some "Response generation failed: LLM API returned no result." }
    | .exn e => { error_message := some ("Response generation failed: " ++ e) }

/-- Embedding of node `critique_and_refine` (nodes.py).  Note the Python
truthiness test `if not extracted_data or not draft_reply` — an empty
draft string counts as missing. -/
def critique_and_refine (state : AgentState) (llm : LLMResult Critique) : AgentState :=
  if state.extracted_data.isNone || !(truthyStr state.draft_reply) then
    { requires_review := some true }
  else
    match llm with
    | .ok c =>
      if c.is_acceptable then
        { critique_feedback := some "None", requires_review := some true }
      else
        { critique_feedback := some c.feedback, requires_review := some false }
    | .nullResult => { requires_review := some true }
    | .exn _ => { requires_review := some true }

/-- Embedding of `GraphOrchestrator._route_after_triage` (orchestrator.py). -/
def route_after_triage (state : AgentState) : String :=
  if truthyStr state.error_message then "end"
  else
    match state.triage_result with
    | none => "end"
    | some t =>
      if t.priority == "high" then "continue"
      else if !t.should_respond then "end"
      else "continue"

/-- Embedding of `GraphOrchestrator._route_after_extraction`
(orchestrator.py): it inspects only `triage_result`, never
`error_message`. -/
def route_after_extraction (state : AgentState) : String :=
  match state.triage_result with
  | some t => if t.priority == "high" && !t.should_respond then "end" else "learn"
  | none => "learn"

/-- Embedding of `GraphOrchestrator._route_action` (orchestrator.py)
with the injected registry abstracted: `_route_action` is a method whose
`self.tool_registry` is supplied at orchestrator construction, and its
registered-tool test is `hasattr(self.tool_registry, intent.tool_name)`;
`hasattrFn` is that registry object's `hasattr` capability. -/
def route_action_with (hasattrFn : String → Bool) (state : AgentState) : String :=
  match state.intent, state.triage_result with
  | some i, some t =>
    if truthyStr state.error_message then "end"
    else if hasattrFn i.tool_name then "tool_and_respond"
    else if t.category == "job_application" || t.category == "customer_support" then
      "rag_and_respond"
    else "respond"
  | _, _ => "end"

/-- `_route_action` as constructed in this repository: the orchestrator
receives a `ToolRegistry` instance, whose `hasattr` capability is
`hasattrToolRegistry`. -/
def route_action (state : AgentState) : String :=
  route_action_with hasattrToolRegistry state

/-- Embedding of `GraphOrchestrator._route_for_revision`
(orchestrator.py): it inspects only `requires_review` and
`revision_count`, never `error_message`. -/
def route_for_revision (state : AgentState) : String :=
  if state.requires_review.getD false || decide (MAX_REVISIONS ≤ state.revision_count.getD 0)
  then "end" else "revise"

/-- The nodes registered in `GraphOrchestrator._build_graph`
(orchestrator.py).  The terminal marker `END` is represented as `none`
in a configuration's `Option Node` component. -/
inductive Node where
  | triage
  | extract_data
  | find_learning_opportunities
  | select_intent
  | rag
  | execute_tool
  | generate_response
  | critique_and_refine
deriving DecidableEq, BEq, Repr

/-- One step's collaborator behaviour: the outcome each node's LLM /
retriever / tool call would have if that node ran at this step.  A run's
collaborator behaviour is a function `Nat → OracleStep` (step-indexed),
which covers every possible behaviour of the injected collaborators. -/
structure OracleStep where
  triageR : LLMResult TriageResult := .nullResult
  extractR : LLMResult ExtractedData := .nullResult
  learnR : LLMResult LearnableInfo := .nullResult
  intentR : LLMResult Intent := .nullResult
  ragR : LLMResult String := .nullResult
  toolR : LLMResult String := .nullResult
  draftR : LLMResult String := .nullResult
  critiqueR : LLMResult Critique := .nullResult
deriving DecidableEq, Repr

/-- Invoke one node against a state snapshot, returning its partial
update (the dispatch table of `workflow.add_node` in orchestrator.py). -/
def runNode (n : Node) (s : AgentState) (o : OracleStep) : AgentState :=
  match n with
  | .triage => triage_email s o.triageR
  | .extract_data => extract_data s o.extractR
  | .find_learning_opportunities => find_learning_opportunities s o.learnR
  | .select_intent => select_intent_and_tool s o.intentR
  | .rag => retrieve_from_knowledge_base s o.ragR
  | .execute_tool => execute_tool s o.toolR
  | .generate_response => generate_response s o.draftR
  | .critique_and_refine => critique_and_refine s o.critiqueR

/-- Resolve the successor of a node from the merged state: the
unconditional edges and conditional-edge tables of
`GraphOrchestrator._build_graph` (orchestrator.py).  `none` is `END`. -/
def nextNode (n : Node) (s : AgentState) : Option Node :=
  match n with
  | .triage =>
    if route_after_triage s == "continue" then some .extract_data else none
  | .extract_data =>
    if route_after_extraction s == "learn" then some .find_learning_opportunities else none
  | .find_learning_opportunities => some .select_intent
  | .select_intent =>
    let key := route_action s
    if key == "rag_and_respond" then some .rag
    else if key == "tool_and_respond" then some .execute_tool
    else if key == "respond" then some .generate_response
    else none
  | .rag => some .generate_response
  | .execute_tool => some .generate_response
  | .generate_response => some .critique_and_refine
  | .critique_and_refine =>
    if route_for_revision s == "revise" then some .generate_response else none

/-- One engine superstep on a configuration (current node, running
state): invoke the node, merge its update, resolve the next node.  A
terminated configuration (`none`) is left unchanged. -/
def stepCfg (o : OracleStep) : Option Node × AgentState → Option Node × AgentState
  | (none, s) => (none, s)
  | (some n, s) =>
    let s' := merge s (runNode n s o)
    (nextNode n s', s')

/-- Run the engine for `k` supersteps, the step at index `i` consuming
`oracle i`.  A full run is `runFrom oracle 0 k (some .triage, initial)`;
the run has terminated within `k` steps iff the first component is
`none`. -/
def runFrom (oracle : Nat → OracleStep) (i : Nat) : Nat → Option Node × AgentState → Option Node × AgentState
  | 0, cfg => cfg
  | k + 1, cfg => runFrom oracle (i + 1) k (stepCfg (oracle i) cfg)

/-- The list of nodes the engine invokes during the first `k` supersteps
(stopping at termination).  `(runTrace oracle 0 k cfg).count .generate_response`
is the number of Draft-stage invocations within those steps. -/
def runTrace (oracle : Nat → OracleStep) (i : Nat) : Nat → Option Node × AgentState → List Node
  | 0, _ => []
  | _ + 1, (none, _) => []
  | k + 1, (some n, s) =>
    n :: runTrace oracle (i + 1) k (stepCfg (oracle i) (some n, s))

/-- A concrete email, used as the unit of work in the concrete runs. -/
def sampleEmail : EmailDetails :=
  { message_id := "m1", thread_id := "t1", sender_email := "a@b.c",
    subject := "hello", full_content := "please reply",
    original_message_id_header := "m1", attachments := [] }

/-- The initial state the driver supplies: `email_details` and
`conversation_history` set before entry. -/
def initState : AgentState :=
  { email_details := some sampleEmail, conversation_history := some "N/A" }

/-- The entry configuration of a run (`workflow.set_entry_point("triage")`). -/
def initCfg : Option Node × AgentState := (some .triage, initState)

/-- A triage verdict that continues the pipeline: medium priority,
response needed, category outside the RAG set. -/
def triageMedium : TriageResult :=
  { category := "spam", priority := "medium", should_respond := true,
    reasoning := "r" }

/-- A concrete extraction result. -/
def extractedSample : ExtractedData :=
  { summary := "user asks for a reply", has_attachments := false }

/-- Collaborator behaviour in which every Draft call raises an exception
and every Critique call rejects the draft. -/
def stuckStep : OracleStep :=
  { draftR := .exn "boom", critiqueR := .ok { is_acceptable := false, feedback := "needs work" } }

/-- Adversarial collaborator behaviour: the pipeline proceeds normally
and the first Draft call succeeds, after which every Draft call raises
an exception and every Critique call rejects the draft. -/
def oStuck : Nat → OracleStep := fun i =>
  if i = 0 then { triageR := .ok triageMedium }
  else if i = 1 then { extractR := .ok extractedSample }
  else if i = 2 then {}
  else if i = 3 then { intentR := .ok { tool_name := "respond", tool_query := none } }
  else if i = 4 then { draftR := .ok "first draft" }
  else stuckStep

/-- The configuration the adversarial run reaches after 8 supersteps and
returns to every two supersteps thereafter. -/
def stuckCfg : Option Node × AgentState := runFrom oStuck 0 8 initCfg

/-- Collaborator behaviour for the cap-forced scenario: every stage
succeeds, each Draft call yields the draft text `d`, and every Critique
call rejects with feedback `f`. -/
def oCapped (d f : String) : Nat → OracleStep := fun _ =>
  { triageR := .ok triageMedium, extractR := .ok extractedSample,
    intentR := .ok { tool_name := "respond", tool_query := none },
    draftR := .ok d,
    critiqueR := .ok { is_acceptable := false, feedback := f } }

/-- State of the capped run after 5 supersteps (triage, extraction,
learning, intent selection and the first draft have run; `d` is the
draft text). -/
def cappedS5 (d : String) : AgentState :=
  { email_details := some sampleEmail, conversation_history := some "N/A",
    triage_result := some triageMedium, extracted_data := some extractedSample,
    intent := some { tool_name := "respond", tool_query := none },
    draft_reply := some d, revision_count := some 1 }

/-- State of the capped run after 6 supersteps (the first critique has
rejected the draft with feedback `f`). -/
def cappedS6 (d f : String) : AgentState :=
  { cappedS5 d with critique_feedback := some f, requires_review := some false }

/-- State of the capped run after 7 supersteps (the second draft has
run) — also its final state. -/
def cappedS7 (d f : String) : AgentState :=
  { cappedS6 d f with revision_count := some 2 }

/-- The empty state (every field absent). -/
def emptyState : AgentState := {}

/-- A state carrying a non-empty `error_message` together with the
triage result and intent a mid-pipeline failure would leave in place. -/
def sErr : AgentState :=
  { error_message := some "boom", triage_result := some triageMedium,
    intent := some { tool_name := "respond", tool_query := none } }

/-- A state whose intent names `llm` — an attribute of the
`ToolRegistry` instance that is not a registered tool. -/
def sLlm : AgentState :=
  { intent := some { tool_name := "llm", tool_query := none },
    triage_result := some triageMedium }

/-- A state ready for the drafting stage (extraction done, no revision
yet). -/
def draftInput : AgentState := { extracted_data := some extractedSample }

/-- A state ready for the critique stage (extraction done, non-empty
draft present). -/
def critiqueInput : AgentState :=
  { extracted_data := some extractedSample, draft_reply := some "a draft" }

/-- A state already containing `b = 2` (field `tool_output`), for the
merge example. -/
def stateB : AgentState := { tool_output := some "2" }

/-- The partial update `{a: 1}` (field `revision_count`). -/
def updA1 : AgentState := { revision_count := some 1 }

/-- The partial update `{a: 2}` (field `revision_count`). -/
def updA2 : AgentState := { revision_count := some 2 }

/-- A terminated configuration stays terminated. -/
theorem runFrom_none (oracle : Nat → OracleStep) :
    ∀ (k i : Nat) (s : AgentState), runFrom oracle i k (none, s) = (none, s) := by
  intro k
  induction k with
  | zero => intro i s; rfl
  | succ k ih => intro i s; exact ih (i + 1) s

/-- A terminated configuration contributes no further trace. -/
theorem runTrace_none (oracle : Nat → OracleStep) (k i : Nat) (s : AgentState) :
    runTrace oracle i k (none, s) = [] := by
  cases k <;> rfl

/-- Splitting a run: `a + b` supersteps are `a` supersteps followed by
`b` supersteps from the reached configuration. -/
theorem runFrom_add (oracle : Nat → OracleStep) (a : Nat) :
    ∀ (b i : Nat) (cfg : Option Node × AgentState),
      runFrom oracle i (a + b) cfg = runFrom oracle (i + a) b (runFrom oracle i a cfg) := by
  induction a with
  | zero => intro b i cfg; rw [Nat.zero_add, Nat.add_zero]; rfl
  | succ a ih =>
    intro b i cfg
    have h1 : a + 1 + b = (a + b) + 1 := by omega
    rw [h1]
    show runFrom oracle (i + 1) (a + b) (stepCfg (oracle i) cfg) = _
    rw [ih b (i + 1) (stepCfg (oracle i) cfg)]
    have h2 : i + 1 + a = i + (a + 1) := by omega
    rw [h2]
    rfl

/-- Splitting a trace: the trace of `a + b` supersteps is the trace of
the first `a` followed by the trace of `b` more from the configuration
reached after `a`. -/
theorem runTrace_add (oracle : Nat → OracleStep) (a : Nat) :
    ∀ (b i : Nat) (cfg : Option Node × AgentState),
      runTrace oracle i (a + b) cfg =
        runTrace oracle i a cfg ++ runTrace oracle (i + a) b (runFrom oracle i a cfg) := by
  induction a with
  | zero => intro b i cfg; rw [Nat.zero_add, Nat.add_zero]; rfl
  | succ a ih =>
    intro b i cfg
    have h1 : a + 1 + b = (a + b) + 1 := by omega
    rw [h1]
    match cfg with
    | (none, s) =>
      rw [runFrom_none, runTrace_none, runTrace_none, runTrace_none]
      rfl
    | (some n, s) =>
      show n :: runTrace oracle (i + 1) (a + b) (stepCfg (oracle i) (some n, s)) = _
      rw [ih b (i + 1) (stepCfg (oracle i) (some n, s))]
      have h2 : i + 1 + a = i + (a + 1) := by omega
      rw [h2]
      rfl

/-- Peeling the last superstep off a run. -/
theorem runFrom_succ (oracle : Nat → OracleStep) (i k : Nat) (cfg : Option Node × AgentState) :
    runFrom oracle i (k + 1) cfg = stepCfg (oracle (i + k)) (runFrom oracle i k cfg) := by
  rw [runFrom_add oracle k 1 i cfg]
  rfl

/-- From superstep 5 on, the adversarial behaviour is constant: Draft
raises, Critique rejects. -/
theorem oStuck_ge (i : Nat) (h : 5 ≤ i) : oStuck i = stuckStep := by
  simp only [oStuck]
  rw [if_neg (by omega), if_neg (by omega), if_neg (by omega), if_neg (by omega),
    if_neg (by omega)]

/-- Under the adversarial behaviour the configuration reached after 8
supersteps recurs every 2 supersteps: Draft fails (leaving
`revision_count` untouched), Critique rejects, and the revision router
loops back to Draft. -/
theorem stuck_cycle (i : Nat) (h : 5 ≤ i) : runFrom oStuck i 2 stuckCfg = stuckCfg := by
  show stepCfg (oStuck (i + 1)) (stepCfg (oStuck i) stuckCfg) = stuckCfg
  rw [oStuck_ge i h, oStuck_ge (i + 1) (by omega)]
  rfl

/-- Each recurrence of the stuck cycle invokes Draft and Critique once
more. -/
theorem stuck_trace_cycle (i : Nat) (h : 5 ≤ i) :
    runTrace oStuck i 2 stuckCfg = [Node.generate_response, Node.critique_and_refine] := by
  show Node.generate_response :: runTrace oStuck (i + 1) 1 (stepCfg (oStuck i) stuckCfg) = _
  rw [oStuck_ge i h]
  rfl

/-- The adversarial run is back at the Draft stage after `8 + 2m`
supersteps, for every `m`. -/
theorem stuck_reaches (m : Nat) : runFrom oStuck 0 (8 + 2 * m) initCfg = stuckCfg := by
  induction m with
  | zero => rfl
  | succ m ih =>
    have h : 8 + 2 * (m + 1) = (8 + 2 * m) + 2 := by omega
    rw [h, runFrom_add, ih, Nat.zero_add]
    exact stuck_cycle _ (by omega)

/-- Number of Draft invocations in the adversarial run after `8 + 2m`
supersteps. -/
theorem stuck_trace_count (m : Nat) :
    (runTrace oStuck 0 (8 + 2 * m) initCfg).count Node.generate_response = m + 2 := by
  induction m with
  | zero => rfl
  | succ m ih =>
    have h : 8 + 2 * (m + 1) = (8 + 2 * m) + 2 := by omega
    rw [h, runTrace_add, stuck_reaches m, Nat.zero_add,
      stuck_trace_cycle (8 + 2 * m) (by omega), List.count_append, ih]
    rfl

/-- Appending to a non-empty string yields a non-empty string (used for
the interpolated error messages of the nodes). -/
theorem append_ne_empty (p e : String) (h : p ≠ "") : p ++ e ≠ "" := by
  intro hc
  apply h
  have hl := congrArg String.length hc
  rw [String.length_append] at hl
  have h0 : ("" : String).length = 0 := rfl
  rw [h0] at hl
  have hp : p.length = 0 := by omega
  cases p with
  | mk data =>
    cases data with
    | nil => rfl
    | cons c cs => simp [String.length] at hp

/-- Every node's partial update either leaves `error_message` unmentioned
or sets it to a non-empty string: no node ever clears or empties it. -/
theorem runNode_error_ok (n : Node) (s : AgentState) (o : OracleStep) :
    (runNode n s o).error_message = none ∨
    ∃ e, (runNode n s o).error_message = some e ∧ e ≠ "" := by
  cases n <;>
    simp only [runNode, triage_email, extract_data, find_learning_opportunities,
      extract_learnable_info, select_intent_and_tool, retrieve_from_knowledge_base,
      execute_tool, generate_response, critique_and_refine] <;>
    repeat' split
  all_goals
    first
    | exact Or.inl rfl
    | exact Or.inr ⟨_, rfl, by decide⟩
    | exact Or.inr ⟨_, rfl, append_ne_empty _ _ (by decide)⟩
    | exact Or.inr ⟨_, rfl, append_ne_empty _ _ (append_ne_empty _ _ (by decide))⟩
    | exact Or.inr ⟨_, rfl, append_ne_empty _ _ (append_ne_empty _ _ (append_ne_empty _ _ (by decide)))⟩

/-- One engine superstep preserves a non-empty `error_message`. -/
theorem stepCfg_error_mono (o : OracleStep) (cfg : Option Node × AgentState)
    (h : ∃ e, cfg.2.error_message = some e ∧ e ≠ "") :
    ∃ e, (stepCfg o cfg).2.error_message = some e ∧ e ≠ "" := by
  match cfg with
  | (none, s) => exact h
  | (some n, s) =>
    show ∃ e, (merge s (runNode n s o)).error_message = some e ∧ e ≠ ""
    rcases runNode_error_ok n s o with hn | ⟨e, he, hne⟩
    · rcases h with ⟨e, hs, hne⟩
      exact ⟨e, by simp only [merge, hn, updField]; exact hs, hne⟩
    · exact ⟨e, by simp only [merge, he, updField], hne⟩

/-- Superstep 5 of the capped run: the first critique rejects the
(non-empty) draft, and the revision router loops back to Draft since
`revision_count = 1 < MAX_REVISIONS`. -/
theorem capped_step5 (d f : String) (hd : (d == "") = false) :
    stepCfg (oCapped d f 5) (some Node.critique_and_refine, cappedS5 d) =
      (some Node.generate_response, cappedS6 d f) := by
  simp [stepCfg, oCapped, runNode, critique_and_refine, truthyStr, hd, merge, updField,
    nextNode, route_for_revision, MAX_REVISIONS, cappedS5, cappedS6]

/-- Superstep 7 of the capped run: the second critique rejects again,
but the revision router ends the run since `revision_count = 2 ≥
MAX_REVISIONS`. -/
theorem capped_step7 (d f : String) (hd : (d == "") = false) :
    stepCfg (oCapped d f 7) (some Node.critique_and_refine, cappedS7 d f) =
      (none, cappedS7 d f) := by
  simp [stepCfg, oCapped, runNode, critique_and_refine, truthyStr, hd, merge, updField,
    nextNode, route_for_revision, MAX_REVISIONS, cappedS5, cappedS6, cappedS7]

/-- The capped run reaches the first critique after 5 supersteps. -/
theorem capped_run5 (d f : String) :
    runFrom (oCapped d f) 0 5 initCfg = (some Node.critique_and_refine, cappedS5 d) := rfl

/-- The capped run terminates after 8 supersteps in state `cappedS7`. -/
theorem capped_run8 (d f : String) (hd : (d == "") = false) :
    runFrom (oCapped d f) 0 8 initCfg = (none, cappedS7 d f) := by
  have e6 : runFrom (oCapped d f) 0 6 initCfg = (some Node.generate_response, cappedS6 d f) := by
    have h := runFrom_succ (oCapped d f) 0 5 initCfg
    rw [capped_run5 d f] at h
    exact h.trans (capped_step5 d f hd)
  have e7 : runFrom (oCapped d f) 0 7 initCfg = (some Node.critique_and_refine, cappedS7 d f) := by
    have h := runFrom_succ (oCapped d f) 0 6 initCfg
    rw [e6] at h
    exact h.trans rfl
  have h := runFrom_succ (oCapped d f) 0 7 initCfg
  rw [e7] at h
  exact h.trans (capped_step7 d f hd)

/-- Trace of the last three supersteps of the capped run. -/
theorem capped_tail_trace (d f : String) (hd : (d == "") = false) :
    runTrace (oCapped d f) 5 3 (some Node.critique_and_refine, cappedS5 d) =
      [Node.critique_and_refine, Node.generate_response, Node.critique_and_refine] := by
  show Node.critique_and_refine ::
      runTrace (oCapped d f) 6 2
        (stepCfg (oCapped d f 5) (some Node.critique_and_refine, cappedS5 d)) = _
  rw [capped_step5 d f hd]
  rfl

/-- Full trace of the capped run: Draft (`generate_response`) is invoked
exactly twice. -/
theorem capped_trace8 (d f : String) (hd : (d == "") = false) :
    runTrace (oCapped d f) 0 8 initCfg =
      [Node.triage, Node.extract_data, Node.find_learning_opportunities,
       Node.select_intent, Node.generate_response, Node.critique_and_refine,
       Node.generate_response, Node.critique_and_refine] := by
  have ht : runTrace (oCapped d f) 0 8 initCfg =
      runTrace (oCapped d f) 0 5 initCfg ++
        runTrace (oCapped d f) (0 + 5) 3 (runFrom (oCapped d f) 0 5 initCfg) :=
    runTrace_add (oCapped d f) 5 3 0 initCfg
  rw [capped_run5 d f, Nat.zero_add, capped_tail_trace d f hd] at ht
  exact ht

/-- C1: the claim that `invoke` always terminates with the Draft stage
invoked at most `MAX_REVISIONS + 1` times fails on the code.  Under the
adversarial collaborator behaviour `oStuck` (pipeline proceeds, the
first Draft call succeeds, every later Draft call raises an exception,
every Critique call rejects), the run is still at the Draft stage after
`8 + 2m` supersteps for every `m`, having invoked Draft `m + 2` times:
a failing Draft does not increment `revision_count`, so the revision cap
never fires and the revise/critique cycle loops unboundedly, exceeding
`MAX_REVISIONS + 1` Draft invocations. -/
theorem c1_draft_unbounded_on_failure (m : Nat) :
    (runFrom oStuck 0 (8 + 2 * m) initCfg).1 = some Node.generate_response ∧
    (runTrace oStuck 0 (8 + 2 * m) initCfg).count Node.generate_response = m + 2 ∧
    MAX_REVISIONS + 1 <
      (runTrace oStuck 0 (8 + 2 * (m + 2)) initCfg).count Node.generate_response := by
  refine ⟨?_, stuck_trace_count m, ?_⟩
  · rw [stuck_reaches m]; rfl
  · rw [stuck_trace_count (m + 2)]
    have hmr : MAX_REVISIONS = 2 := rfl
    omega

/-- C2: evaluation at a failing input: with a non-empty `error_message`
in the state (and the triage result and intent a mid-pipeline failure
would leave behind), the after-extraction router still returns `learn`
and the revision router still returns `revise`; only the after-triage
and action routers return `end`.  The claim that every router returns
`end` on a set `error_message` therefore fails on the code. -/
theorem c2_routers_on_error :
    truthyStr sErr.error_message = true ∧
    route_after_extraction sErr = "learn" ∧
    route_for_revision sErr = "revise" ∧
    route_after_triage sErr = "end" ∧
    route_action sErr = "end" := by
  decide

/-- C3: counterexample to the claimed Draft count of 3: with every stage
succeeding, every critique rejecting, and `MAX_REVISIONS = 2`, the run
terminates within 8 supersteps, Draft having been invoked exactly 2
times (not 3), with `requires_review = some false` in the final state. -/
theorem c3_counterexample :
    (runFrom (oCapped "a draft" "too short") 0 8 initCfg).1 = none ∧
    (runTrace (oCapped "a draft" "too short") 0 30 initCfg).count Node.generate_response = 2 ∧
    ¬((runTrace (oCapped "a draft" "too short") 0 30 initCfg).count Node.generate_response = 3) ∧
    (runFrom (oCapped "a draft" "too short") 0 8 initCfg).2.requires_review = some false := by
  refine ⟨by decide, by decide, by decide, by decide⟩

/-- C3 (amended): in a run where every stage succeeds, every critique
yields `requires_review = false`, and `MAX_REVISIONS = 2`, the Draft
stage is invoked exactly 2 times (the initial draft plus 1 revision —
the initial draft already counts as revision 1), after which the run
terminates with `requires_review = some false` still set. -/
theorem c3_capped_run (d f : String) (hd : d ≠ "") :
    (runFrom (oCapped d f) 0 8 initCfg).1 = none ∧
    (runFrom (oCapped d f) 0 8 initCfg).2.requires_review = some false ∧
    ∀ k : Nat, (runTrace (oCapped d f) 0 (8 + k) initCfg).count Node.generate_response = 2 := by
  have hd' : (d == "") = false := beq_eq_false_iff_ne.mpr hd
  refine ⟨?_, ?_, ?_⟩
  · rw [capped_run8 d f hd']
  · rw [capped_run8 d f hd']; rfl
  · intro k
    have ht : runTrace (oCapped d f) 0 (8 + k) initCfg =
        runTrace (oCapped d f) 0 8 initCfg ++
          runTrace (oCapped d f) (0 + 8) k (runFrom (oCapped d f) 0 8 initCfg) :=
      runTrace_add (oCapped d f) 8 k 0 initCfg
    rw [capped_run8 d f hd', runTrace_none, List.append_nil, capped_trace8 d f hd'] at ht
    rw [ht]
    rfl

/-- C3 witness: the amended cap-forced run at a concrete draft and
feedback. -/
theorem c3_capped_run_witness :
    ("a draft" ≠ "") ∧
    (runFrom (oCapped "a draft" "needs detail") 0 8 initCfg).1 = none ∧
    (runTrace (oCapped "a draft" "needs detail") 0 (8 + 0) initCfg).count Node.generate_response = 2 :=
  ⟨by decide, (c3_capped_run "a draft" "needs detail" (by decide)).1,
    (c3_capped_run "a draft" "needs detail" (by decide)).2.2 0⟩

/-- `hasattr` on the registry is membership in the attribute-name list. -/
theorem hasattr_iff (name : String) :
    hasattrToolRegistry name = true ↔
      name ∈ toolNames ++ registryExtraAttrNames ++ objectAttrNames := by
  simp [hasattrToolRegistry, List.elem_iff]

/-- C4: counterexample: with the intent naming `llm` — an attribute of
the `ToolRegistry` instance but not a registered tool — the action
router still returns `tool_and_respond`, so the set of names treated as
registered tools is not exactly the enumerated tool set. -/
theorem c4_counterexample :
    ¬((route_action sLlm = "tool_and_respond") ↔ "llm" ∈ toolNames) := by
  decide

/-- C4 (amended): the action router's registered-tool test is Python
`hasattr` on the injected registry object, not membership in the
enumerated tool set.  For every attribute predicate `hf` the registry
object may have and every error-free state with intent and triage
present, the router returns `tool_and_respond` exactly when `hf`
accepts the intent's tool name, otherwise `rag_and_respond` exactly
when the triage category is `job_application` or `customer_support`,
and `respond` in the remaining cases; the repository's registry accepts
every enumerated tool name but also non-tool attributes such as `llm`,
so the set of names treated as registered tools is strictly larger than
the enumerated tool set. -/
theorem c4_route_action_cases (hf : String → Bool) (s : AgentState) (i : Intent)
    (t : TriageResult) (hi : s.intent = some i) (ht : s.triage_result = some t)
    (he : truthyStr s.error_message = false) :
    ((route_action_with hf s = "tool_and_respond") ↔ hf i.tool_name = true) ∧
    ((route_action_with hf s = "rag_and_respond") ↔ hf i.tool_name = false ∧
      (t.category = "job_application" ∨ t.category = "customer_support")) ∧
    ((route_action_with hf s = "respond") ↔ hf i.tool_name = false ∧
      ¬(t.category = "job_application") ∧ ¬(t.category = "customer_support")) ∧
    (route_action s = route_action_with hasattrToolRegistry s) ∧
    (i.tool_name ∈ toolNames → hasattrToolRegistry i.tool_name = true) ∧
    (hasattrToolRegistry "llm" = true) ∧ ¬("llm" ∈ toolNames) := by
  refine ⟨?_, ?_, ?_, rfl, ?_, by decide, by decide⟩
  · cases hb : hf i.tool_name <;>
      by_cases hc1 : t.category = "job_application" <;>
        by_cases hc2 : t.category = "customer_support" <;>
          simp +decide [route_action_with, hi, ht, he, hb, hc1, hc2]
  · cases hb : hf i.tool_name <;>
      by_cases hc1 : t.category = "job_application" <;>
        by_cases hc2 : t.category = "customer_support" <;>
          simp +decide [route_action_with, hi, ht, he, hb, hc1, hc2]
  · cases hb : hf i.tool_name <;>
      by_cases hc1 : t.category = "job_application" <;>
        by_cases hc2 : t.category = "customer_support" <;>
          simp +decide [route_action_with, hi, ht, he, hb, hc1, hc2]
  · intro hmem
    rw [hasattr_iff]
    exact List.mem_append.mpr (Or.inl (List.mem_append.mpr (Or.inl hmem)))

/-- C4 witness: the amended router characterization applied at the
`llm`-naming state with the repository's registry. -/
theorem c4_route_action_cases_witness :
    ((route_action_with hasattrToolRegistry sLlm = "tool_and_respond") ↔
      hasattrToolRegistry "llm" = true) :=
  (c4_route_action_cases hasattrToolRegistry sLlm { tool_name := "llm", tool_query := none }
    triageMedium rfl rfl rfl).1

/-- C5: counterexample: a Draft invocation whose LLM call raises an
exception does not increment `revision_count`: merging its update leaves
the count at its old value (here: absent, i.e. 0), not old + 1. -/
theorem c5_counterexample :
    ¬((merge draftInput (generate_response draftInput (.exn "boom"))).revision_count
        = some (draftInput.revision_count.getD 0 + 1)) := by
  decide

/-- C5 (amended): a successful Draft invocation (update without
`error_message`) merges to `revision_count = old + 1`, an absent count
taken as 0; a failing invocation (update carrying `error_message`)
leaves `revision_count` unchanged. -/
theorem c5_revision_count (s : AgentState) (o : LLMResult String) :
    ((generate_response s o).error_message = none →
      (merge s (generate_response s o)).revision_count = some (s.revision_count.getD 0 + 1)) ∧
    ((generate_response s o).error_message ≠ none →
      (merge s (generate_response s o)).revision_count = s.revision_count) := by
  cases hx : s.extracted_data <;> cases o <;>
    simp [generate_response, hx, merge, updField]

/-- C5 witness: a successful draft at revision 0 merges to revision 1. -/
theorem c5_revision_count_witness :
    (generate_response draftInput (.ok "hello")).error_message = none ∧
    (merge draftInput (generate_response draftInput (.ok "hello"))).revision_count
      = some (draftInput.revision_count.getD 0 + 1) :=
  ⟨rfl, (c5_revision_count draftInput (.ok "hello")).1 rfl⟩

/-- C6: merging a partial update overwrites exactly the fields the
update mentions and preserves every unmentioned field; a later merge
wins on conflicting fields; and the concrete example — `{a: 1}` into a
state containing `{b: 2}`, then `{a: 2}` — yields `a=1, b=2` then
`a=2, b=2` (with `revision_count` as `a` and `tool_output` as `b`). -/
theorem c6_merge_semantics :
    (∀ s u : AgentState,
      ((∀ v, u.email_details = some v → (merge s u).email_details = some v) ∧
        (u.email_details = none → (merge s u).email_details = s.email_details)) ∧
      ((∀ v, u.conversation_history = some v → (merge s u).conversation_history = some v) ∧
        (u.conversation_history = none → (merge s u).conversation_history = s.conversation_history)) ∧
      ((∀ v, u.triage_result = some v → (merge s u).triage_result = some v) ∧
        (u.triage_result = none → (merge s u).triage_result = s.triage_result)) ∧
      ((∀ v, u.extracted_data = some v → (merge s u).extracted_data = some v) ∧
        (u.extracted_data = none → (merge s u).extracted_data = s.extracted_data)) ∧
      ((∀ v, u.intent = some v → (merge s u).intent = some v) ∧
        (u.intent = none → (merge s u).intent = s.intent)) ∧
      ((∀ v, u.rag_context = some v → (merge s u).rag_context = some v) ∧
        (u.rag_context = none → (merge s u).rag_context = s.rag_context)) ∧
      ((∀ v, u.tool_output = some v → (merge s u).tool_output = some v) ∧
        (u.tool_output = none → (merge s u).tool_output = s.tool_output)) ∧
      ((∀ v, u.draft_reply = some v → (merge s u).draft_reply = some v) ∧
        (u.draft_reply = none → (merge s u).draft_reply = s.draft_reply)) ∧
      ((∀ v, u.learnable_fact = some v → (merge s u).learnable_fact = some v) ∧
        (u.learnable_fact = none → (merge s u).learnable_fact = s.learnable_fact)) ∧
      ((∀ v, u.critique_feedback = some v → (merge s u).critique_feedback = some v) ∧
        (u.critique_feedback = none → (merge s u).critique_feedback = s.critique_feedback)) ∧
      ((∀ v, u.revision_count = some v → (merge s u).revision_count = some v) ∧
        (u.revision_count = none → (merge s u).revision_count = s.revision_count)) ∧
      ((∀ v, u.requires_review = some v → (merge s u).requires_review = some v) ∧
        (u.requires_review = none → (merge s u).requires_review = s.requires_review)) ∧
      ((∀ v, u.error_message = some v → (merge s u).error_message = some v) ∧
        (u.error_message = none → (merge s u).error_message = s.error_message))) ∧
    (∀ s u₁ u₂ : AgentState,
      (∀ v : Nat, u₂.revision_count = some v →
        (merge (merge s u₁) u₂).revision_count = some v) ∧
      (u₂.revision_count = none →
        (merge (merge s u₁) u₂).revision_count = (merge s u₁).revision_count)) ∧
    ((merge stateB updA1).revision_count = some 1 ∧
      (merge stateB updA1).tool_output = some "2" ∧
      (merge (merge stateB updA1) updA2).revision_count = some 2 ∧
      (merge (merge stateB updA1) updA2).tool_output = some "2") := by
  refine ⟨fun s u =>
      ⟨⟨fun v hv => ?_, fun hn => ?_⟩, ⟨fun v hv => ?_, fun hn => ?_⟩,
       ⟨fun v hv => ?_, fun hn => ?_⟩, ⟨fun v hv => ?_, fun hn => ?_⟩,
       ⟨fun v hv => ?_, fun hn => ?_⟩, ⟨fun v hv => ?_, fun hn => ?_⟩,
       ⟨fun v hv => ?_, fun hn => ?_⟩, ⟨fun v hv => ?_, fun hn => ?_⟩,
       ⟨fun v hv => ?_, fun hn => ?_⟩, ⟨fun v hv => ?_, fun hn => ?_⟩,
       ⟨fun v hv => ?_, fun hn => ?_⟩, ⟨fun v hv => ?_, fun hn => ?_⟩,
       ⟨fun v hv => ?_, fun hn => ?_⟩⟩,
    fun s u₁ u₂ => ⟨fun v hv => ?_, fun hn => ?_⟩, by decide⟩
  all_goals simp [merge, updField, *]

/-- C6 witness: the last-write-wins conjunct applied at the concrete
example. -/
theorem c6_merge_semantics_witness :
    (merge (merge stateB updA1) updA2).revision_count = some 2 :=
  (c6_merge_semantics.2.1 stateB updA1 updA2).1 2 rfl

/-- C7: once `error_message` holds a non-empty string, it still holds a
non-empty string after any number of further engine supersteps, under
every collaborator behaviour: no stage's update clears or empties it,
and the merge preserves it. -/
theorem c7_error_never_cleared (oracle : Nat → OracleStep) (k : Nat) :
    ∀ (i : Nat) (cfg : Option Node × AgentState),
      (∃ e, cfg.2.error_message = some e ∧ e ≠ "") →
      ∃ e, (runFrom oracle i k cfg).2.error_message = some e ∧ e ≠ "" := by
  induction k with
  | zero => intro i cfg h; exact h
  | succ k ih =>
    intro i cfg h
    exact ih (i + 1) (stepCfg (oracle i) cfg) (stepCfg_error_mono (oracle i) cfg h)

/-- C7 witness: a non-empty error set before the critique stage is still
set three supersteps later. -/
theorem c7_error_never_cleared_witness :
    ∃ e, (runFrom oStuck 0 3 (some Node.critique_and_refine, sErr)).2.error_message
      = some e ∧ e ≠ "" :=
  c7_error_never_cleared oStuck 3 0 (some Node.critique_and_refine, sErr)
    ⟨"boom", rfl, by decide⟩

/-- C8: the fact-discovery stage never fails the run: for every state
and every collaborator outcome (structured result, null result or
exception — the latter two folded to `None` by `extract_learnable_info`),
its update is either empty or sets only `learnable_fact`; in particular
it never sets `error_message`. -/
theorem c8_learning_never_fails (s : AgentState) (o : LLMResult LearnableInfo) :
    find_learning_opportunities s o = {} ∨
    ∃ f : String, find_learning_opportunities s o = { learnable_fact := some f } := by
  cases hd : s.email_details with
  | none => exact Or.inl (by simp [find_learning_opportunities, hd])
  | some _ =>
    cases o with
    | ok r =>
      cases hf : r.fact with
      | none =>
        exact Or.inl (by simp [find_learning_opportunities, extract_learnable_info, hd, hf])
      | some f =>
        by_cases hsig : (r.is_significant && !(f == "")) = true
        · exact Or.inr ⟨f, by
            simp [find_learning_opportunities, extract_learnable_info, hd, hf, hsig]⟩
        · exact Or.inl (by
            simp [find_learning_opportunities, extract_learnable_info, hd, hf, hsig])
    | nullResult =>
      exact Or.inl (by simp [find_learning_opportunities, extract_learnable_info, hd])
    | exn m =>
      exact Or.inl (by simp [find_learning_opportunities, extract_learnable_info, hd])

/-- C9: counterexample: when the critique collaborator rejects with an
empty feedback string, the update sets `requires_review = false` with
`critique_feedback = ""` — neither of the claim's two outcomes (approval
with feedback cleared, or rejection populating a non-empty feedback). -/
theorem c9_counterexample :
    ¬(((critique_and_refine critiqueInput
          (.ok { is_acceptable := false, feedback := "" })).requires_review = some true ∧
        ((critique_and_refine critiqueInput
            (.ok { is_acceptable := false, feedback := "" })).critique_feedback = some "None" ∨
          (critique_and_refine critiqueInput
            (.ok { is_acceptable := false, feedback := "" })).critique_feedback = none)) ∨
      ((critique_and_refine critiqueInput
          (.ok { is_acceptable := false, feedback := "" })).requires_review = some false ∧
        ∃ fb, (critique_and_refine critiqueInput
          (.ok { is_acceptable := false, feedback := "" })).critique_feedback = some fb ∧
            fb ≠ "")) := by
  intro h
  rcases h with ⟨h1, _⟩ | ⟨_, fb, hfb, hne⟩
  · exact absurd h1 (by decide)
  · have h2 : (critique_and_refine critiqueInput
        (.ok { is_acceptable := false, feedback := "" })).critique_feedback = some "" := rfl
    rw [h2] at hfb
    injection hfb with h3
    exact hne h3.symm

/-- C9 (amended): every critique invocation yields exactly one of three
update shapes: rejection — `requires_review = false` with
`critique_feedback` set to the collaborator's feedback string (possibly
empty); approval of an acceptable verdict — `requires_review = true`
with the sentinel feedback `"None"`; or a bare `requires_review = true`
with `critique_feedback` untouched, on the fallback paths (missing or
empty draft, missing extraction, null result, exception). -/
theorem c9_critique_outcomes (s : AgentState) (o : LLMResult Critique) :
    (∃ c, o = .ok c ∧ c.is_acceptable = false ∧
      critique_and_refine s o =
        { critique_feedback := some c.feedback, requires_review := some false }) ∨
    (∃ c, o = .ok c ∧ c.is_acceptable = true ∧
      critique_and_refine s o =
        { critique_feedback := some "None", requires_review := some true }) ∨
    critique_and_refine s o = { requires_review := some true } := by
  by_cases hpre : (s.extracted_data.isNone || !(truthyStr s.draft_reply)) = true
  · exact Or.inr (Or.inr (by simp [critique_and_refine, hpre]))
  · cases o with
    | ok c =>
      cases hacc : c.is_acceptable with
      | false => exact Or.inl ⟨c, rfl, hacc, by simp [critique_and_refine, hpre, hacc]⟩
      | true =>
        exact Or.inr (Or.inl ⟨c, rfl, hacc, by simp [critique_and_refine, hpre, hacc]⟩)
    | nullResult => exact Or.inr (Or.inr (by simp [critique_and_refine, hpre]))
    | exn m => exact Or.inr (Or.inr (by simp [critique_and_refine, hpre]))

/-- C10: the after-extraction router returns `learn` whenever
`triage_result` is absent — regardless of `error_message`, which this
router never inspects — and returns `end` exactly when a triage result
is present with priority `high` and `should_respond = false`. -/
theorem c10_route_after_extraction (s : AgentState) :
    (s.triage_result = none → route_after_extraction s = "learn") ∧
    (∀ e : Option String,
      route_after_extraction { s with error_message := e } = route_after_extraction s) ∧
    ((route_after_extraction s = "end") ↔
      ∃ t, s.triage_result = some t ∧ t.priority = "high" ∧ t.should_respond = false) := by
  refine ⟨fun h => by simp [route_after_extraction, h], fun e => rfl, ?_⟩
  cases ht : s.triage_result with
  | none => simp +decide [route_after_extraction, ht]
  | some t =>
    by_cases h1 : t.priority = "high" <;> by_cases h2 : t.should_respond = true <;>
      simp +decide [route_after_extraction, ht, h1, h2]

/-- C10 witness: a state with no triage result routes to `learn`. -/
theorem c10_route_after_extraction_witness :
    route_after_extraction emptyState = "learn" :=
  (c10_route_after_extraction emptyState).1 rfl

end EmailAgent
